import Mathlib

/-!
Shallow embedding of the itglue-superops-migrator orchestration core
(`src/migrator/core/orchestrator.py`, `src/migrator/core/database.py`,
`src/migrator/api/graphql_client.py`, `src/migrator/api/rest_client.py`,
`src/migrator/parsers/csv_parser.py`) together with theorems settling the
frozen claims about it.

Conventions of the embedding:
* timestamps are abstract `Nat` ticks (`datetime.utcnow()` becomes the
  current clock value threaded through the state);
* the SQLite tables are association lists kept in insertion order;
* exceptions are `Except String`;
* the external world (file system, remote service responses) is passed in
  explicitly as an environment value, one per document / network attempt.
-/

namespace Migrator

/-- Document migration status (`DocumentStatus` in `database.py`). -/
inductive DocStatus
  | pending
  | inProgress
  | completed
  | failed
  | skipped
  deriving DecidableEq, Repr

/-- Attachment upload status (`AttachmentStatus` in `database.py`). -/
inductive AttStatus
  | pending
  | uploaded
  | failed
  | skipped
  deriving DecidableEq, Repr

/-- One row of the `documents` table (`Document` model in `database.py`).
`metadata` / `content_hash` columns are carried but never branched on by the
orchestrator, so `content_hash` stands for both. -/
structure Document where
  id : String
  title : String
  organization : String
  status : DocStatus
  superops_id : Option String
  error_message : Option String
  processed_at : Option Nat
  content_hash : Option String
  deriving DecidableEq, Repr

/-- One row of the `attachments` table (`Attachment` model in `database.py`). -/
structure AttachmentRec where
  id : Nat
  document_id : String
  filename : String
  status : AttStatus
  superops_url : Option String
  error_message : Option String
  uploaded_at : Option Nat
  deriving DecidableEq, Repr

/-- One row of the `migration_runs` table (`MigrationRun` model). -/
structure MigrationRun where
  total_documents : Nat
  successful_documents : Nat
  failed_documents : Nat
  skipped_documents : Nat
  total_attachments : Nat
  successful_attachments : Nat
  failed_attachments : Nat
  error_log : List String
  completed_at : Option Nat
  deriving DecidableEq, Repr

/-- A fresh run as produced by `Database.create_migration_run`: all counters
zero apart from `total_documents`. -/
def MigrationRun.fresh (total : Nat) : MigrationRun :=
  { total_documents := total
    successful_documents := 0
    failed_documents := 0
    skipped_documents := 0
    total_attachments := 0
    successful_attachments := 0
    failed_attachments := 0
    error_log := []
    completed_at := none }

/-- Effect of the SQL `UPDATE documents SET status=?, superops_id=?,
error_message=?, processed_at=? WHERE id=?` of
`Database.update_document_status` on a single row: a matching row gets all
four columns overwritten (the optional columns are overwritten even when the
caller passed `None`), a non-matching row is untouched. -/
def updOne (document_id : String) (status : DocStatus) (superops_id : Option String)
    (error_message : Option String) (now : Nat) (d : Document) : Document :=
  if d.id = document_id then
    { d with
      status := status
      superops_id := superops_id
      error_message := error_message
      processed_at := some now }
  else d

/-- `Database.update_document_status` (database.py:385-418).  The underlying
SQL `UPDATE ... WHERE id = ?` touches exactly the matching rows and completes
without error even when no row matches (`aiosqlite` raises nothing for a
zero-row update), hence the total return type: there is no failure channel. -/
def update_document_status (docs : List Document) (document_id : String)
    (status : DocStatus) (superops_id : Option String := none)
    (error_message : Option String := none) (now : Nat := 0) : List Document :=
  docs.map (updOne document_id status superops_id error_message now)

/-- Modelled from the spec: `updateDocumentStatus(docId, status, remoteId?,
error?)` that "sets status and stamps processed time; fails loudly if the
document does not exist".  Stated only to be compared with the code's
`update_document_status`, which has no failure channel. -/
def update_document_status_loud (docs : List Document) (document_id : String)
    (status : DocStatus) (superops_id : Option String := none)
    (error_message : Option String := none) (now : Nat := 0) :
    Except String (List Document) :=
  if docs.any (fun d => d.id = document_id) then
    .ok (docs.map (updOne document_id status superops_id error_message now))
  else
    .error ("Document not found: " ++ document_id)

/-! ### GraphQL client: retry policy of `SuperOpsGraphQLClient._execute`
(graphql_client.py:203-297).

One network attempt is classified exactly as the Python code classifies it:
`response.raise_for_status()` raises `httpx.HTTPStatusError` for any status
>= 400; the `except httpx.HTTPStatusError` handler converts it into a
`GraphQLError` when the error body parses as JSON carrying an `errors` key
and otherwise re-raises it; a 2xx body that is not JSON raises
`json.JSONDecodeError` out of `response.json()`; a 2xx JSON body with an
`errors` key raises `GraphQLError`; a transport failure raises some other
`httpx.HTTPError`.  The `tenacity` decorator retries precisely the
exceptions that are instances of `httpx.HTTPError` — which includes every
`httpx.HTTPStatusError`, i.e. every plain 4xx/5xx — with
`stop_after_attempt(3)` and `wait_exponential(multiplier=2, min=4, max=60)`. -/

/-- Shape of the body of one HTTP response as far as `_execute` inspects it. -/
inductive Body
  | jsonWithErrors
  | jsonData
  | notJson
  deriving DecidableEq, Repr

/-- Outcome of one network attempt, before exception classification. -/
inductive Attempt
  | transportError
  | response (code : Nat) (body : Body)
  deriving DecidableEq, Repr

/-- The exception (or success) `_execute` produces for one attempt. -/
inductive ExecError
  | graphqlError
  | httpStatusError (code : Nat)
  | httpTransportError
  | jsonDecodeError
  deriving DecidableEq, Repr

/-- `retry_if_exception_type(httpx.HTTPError)`: `httpx.HTTPStatusError` and
transport errors are subclasses of `httpx.HTTPError`; `GraphQLError` and
`json.JSONDecodeError` are not. -/
def retriable : ExecError → Bool
  | .httpStatusError _ => true
  | .httpTransportError => true
  | .graphqlError => false
  | .jsonDecodeError => false

/-- One un-retried pass through the body of `_execute`. -/
def execOnce : Attempt → Except ExecError Unit
  | .transportError => .error .httpTransportError
  | .response code body =>
    if 400 ≤ code then
      match body with
      | .jsonWithErrors => .error .graphqlError
      | .jsonData => .error (.httpStatusError code)
      | .notJson => .error (.httpStatusError code)
    else
      match body with
      | .notJson => .error .jsonDecodeError
      | .jsonWithErrors => .error .graphqlError
      | .jsonData => .ok ()

/-- `tenacity.wait_exponential(multiplier=2, min=4, max=60)`: the sleep after
the `n`-th failed attempt is `multiplier * 2^n` clamped into `[min, max]`. -/
def backoffWait (attempt_number : Nat) : Nat :=
  max 4 (min (2 * 2 ^ attempt_number) 60)

/-- Result of running `_execute` with its `tenacity` retry wrapper: how many
attempts were performed, which sleeps happened between them, and the final
outcome. -/
structure RetryRun where
  attemptsMade : Nat
  waits : List Nat
  outcome : Except ExecError Unit
  deriving Repr

/-- The `tenacity` loop around `_execute`: attempt; on a retriable exception
with fewer than 3 attempts made, sleep the exponential backoff and retry;
otherwise surface the exception.  `outcomes` supplies the result of each
successive network attempt. -/
def retryLoop : List Attempt → Nat → List Nat → RetryRun
  | [], n, ws => ⟨n - 1, ws.reverse, .error .httpTransportError⟩
  | a :: rest, n, ws =>
    match execOnce a with
    | .ok () => ⟨n, ws.reverse, .ok ()⟩
    | .error e =>
      if retriable e ∧ n < 3 then
        retryLoop rest (n + 1) (backoffWait n :: ws)
      else
        ⟨n, ws.reverse, .error e⟩

/-- `_execute` over a stream of per-attempt network outcomes. -/
def executeWithRetry (outcomes : List Attempt) : RetryRun :=
  retryLoop outcomes 1 []

/-! ### GraphQL client: `RateLimiter` (graphql_client.py:20-53).

Continuous token bucket over exact rationals.  `acquire` is the code's
`while self.tokens <= 0` loop: refill from the elapsed wall clock, and if the
bucket is still empty sleep `1 / (rate / per)` seconds and re-check.  The
loop is given explicit fuel; with positive `rate` one sleep always
manufactures one whole token, so fuel 2 already suffices from any state the
limiter can reach, and the theorems hold for every fuel value used. -/

structure RateLimiter where
  rate : ℚ
  per : ℚ
  tokens : ℚ
  updated_at : ℚ
  deriving DecidableEq, Repr

/-- `RateLimiter.__init__(rate, per)`: the bucket starts full. -/
def RateLimiter.init (rate : ℚ) (per : ℚ) : RateLimiter :=
  { rate := rate, per := per, tokens := rate, updated_at := 0 }

/-- Body of the `while self.tokens <= 0` loop of `RateLimiter.acquire`:
returns the limiter after the loop, the wall-clock time when it exits, and
the total time slept. -/
def acquireLoop : Nat → RateLimiter → ℚ → ℚ → RateLimiter × ℚ × ℚ
  | 0, s, now, waited => (s, now, waited)
  | fuel + 1, s, now, waited =>
    if s.tokens ≤ 0 then
      let elapsed := now - s.updated_at
      let s' : RateLimiter :=
        { s with
          tokens := min s.rate (s.tokens + elapsed * (s.rate / s.per))
          updated_at := now }
      if s'.tokens ≤ 0 then
        let wait := 1 / (s.rate / s.per)
        acquireLoop fuel s' (now + wait) (waited + wait)
      else
        acquireLoop fuel s' now waited
    else (s, now, waited)

/-- `RateLimiter.acquire`, entered at wall-clock time `now`: run the wait
loop, then take one token. -/
def RateLimiter.acquire (fuel : Nat) (s : RateLimiter) (now : ℚ) :
    RateLimiter × ℚ × ℚ :=
  let r := acquireLoop fuel s now 0
  ({ r.1 with tokens := r.1.tokens - 1 }, r.2.1, r.2.2)

/-- `n` back-to-back `acquire` calls, each entered the moment the previous
one finished; returns the final limiter, the exit time, and the list of
per-call sleep totals. -/
def acquireSeq : Nat → RateLimiter → ℚ → RateLimiter × ℚ × List ℚ
  | 0, s, now => (s, now, [])
  | n + 1, s, now =>
    let r := s.acquire 100 now
    let rest := acquireSeq n r.1 r.2.1
    (rest.1, rest.2.1, r.2.2 :: rest.2.2)

/-! ### REST client: `SuperOpsAttachmentClient.upload_bytes`
(rest_client.py:193-247).

The client keeps a process-lifetime `_file_cache : hash -> url`.
`upload_bytes` checks the size cap, computes `hashlib.sha256(data)`, returns
the cached URL without touching the network when the hash is cached, and
otherwise performs one `_upload_bytes_internal` network call, caching the URL
on `result.success and result.url`.  SHA-256 is modelled as an arbitrary
function of the byte string — the claims only need that equal bytes hash
equally, which any function gives; the theorems quantify over it. -/

/-- What `_upload_bytes_internal` sees back from the one `POST /upload`. -/
inductive UploadServerResp
  | fileData (url : Option String)
  | noData
  | failure (msg : String)
  deriving DecidableEq, Repr

/-- `AttachmentUploadResult`, restricted to the fields the claims mention. -/
structure UploadResult where
  success : Bool
  filename : String
  file_size : Nat
  url : Option String
  error : Option String
  deriving DecidableEq, Repr

/-- Client state: the size cap and the hash → url deduplication cache. -/
structure AttClient where
  max_file_size : Nat
  file_cache : List (String × String)
  deriving DecidableEq, Repr

/-- `_upload_bytes_internal` (rest_client.py:396-466): one network POST,
turned into an `AttachmentUploadResult` exactly as the code does. -/
def upload_bytes_internal (resp : UploadServerResp) (filename : String)
    (size : Nat) : UploadResult :=
  match resp with
  | .fileData url =>
    { success := true, filename := filename, file_size := size, url := url, error := none }
  | .noData =>
    { success := false, filename := filename, file_size := size, url := none
      error := some "No file data in response" }
  | .failure msg =>
    { success := false, filename := filename, file_size := size, url := none
      error := some msg }

/-- `upload_bytes` (rest_client.py:193-247).  Returns the new client state,
the result, and the number of network upload calls performed (0 or 1). -/
def upload_bytes (hash : List Nat → String) (st : AttClient) (data : List Nat)
    (filename : String) (resp : UploadServerResp) :
    AttClient × UploadResult × Nat :=
  let file_size := data.length
  if st.max_file_size < file_size then
    (st,
     { success := false, filename := filename, file_size := file_size, url := none
       error := some "Data too large" },
     0)
  else
    let data_hash := hash data
    match st.file_cache.lookup data_hash with
    | some url =>
      (st,
       { success := true, filename := filename, file_size := file_size
         url := some url, error := none },
       0)
    | none =>
      let result := upload_bytes_internal resp filename file_size
      match result.url, result.success with
      | some url, true =>
        ({ st with file_cache := (data_hash, url) :: st.file_cache }, result, 1)
      | _, _ => (st, result, 1)

/-! ### Orchestrator (`orchestrator.py`): state, per-document pipeline,
error handling, batching, cancellation. -/

/-- The slice of `Config.migration` the orchestrator branches on. -/
structure MigConfig where
  dry_run : Bool
  skip_existing : Bool
  continue_on_error : Bool
  batch_size : Nat
  deriving DecidableEq, Repr

/-- One network call against the remote service, as recorded in traces. -/
inductive GatewayCall
  | queryKbItems
  | checkExists (title : String)
  | createCollection (name : String)
  | createArticle (title : String)
  | uploadAttachment (filename : String)
  deriving DecidableEq, Repr

/-- A transformed attachment handed to `_upload_attachments`: its filename
and the URL the one upload network call would return (`none` = the upload
fails).  The standard `needs_upload and not superops_url` path is modelled;
embedded-base64 versus on-disk source only changes which client method makes
the single call. -/
structure AttachmentIn where
  filename : String
  result_url : Option String
  deriving DecidableEq, Repr

/-- Everything outside the orchestrator that one document's processing
observes: the CSV metadata cache, the file system, the parser, the
transformer, and the remote service's replies. -/
structure DocEnv where
  in_metadata : Bool
  file_on_disk : Bool
  existing_article : Option String
  parse_error : Option String
  validation_errors : List String
  transform_errors : List String
  transformed_category : Option String
  transformed_attachments : List AttachmentIn
  new_collection_id : String
  created_article : Option String
  deriving DecidableEq, Repr

/-- A document environment where every external step succeeds and there is
nothing to upload or categorize. -/
def DocEnv.allOk : DocEnv :=
  { in_metadata := true
    file_on_disk := true
    existing_article := none
    parse_error := none
    validation_errors := []
    transform_errors := []
    transformed_category := none
    transformed_attachments := []
    new_collection_id := "COL-NEW"
    created_article := some "KB-OK" }

/-- Orchestrator + database + gateway-cache state.  `run` is the in-memory
`self.current_run`; `runPersisted` is the `migration_runs` row, refreshed by
each `update_migration_run` call.  `remoteCollections` is the remote
service's collection list (name, id). -/
structure OrchState where
  documents : List Document
  attachments : List AttachmentRec
  run : MigrationRun
  runPersisted : MigrationRun
  orchCategoryCache : List (String × String)
  clientCategoryCache : List (String × String)
  remoteCollections : List (String × String)
  shutdown : Bool
  clock : Nat
  deriving DecidableEq, Repr

/-- `Database.update_document_status` applied to the orchestrator state. -/
def updateDoc (st : OrchState) (document_id : String) (status : DocStatus)
    (superops_id : Option String := none) (error_message : Option String := none) :
    OrchState :=
  { st with
    documents := update_document_status st.documents document_id status
      superops_id error_message st.clock }

/-- `Database.update_migration_run(self.current_run)`. -/
def persistRun (st : OrchState) : OrchState :=
  { st with runPersisted := st.run }

/-- `Database.update_attachment_status` (database.py:515-548): overwrites
status, url and error of the matching row; `uploaded_at` is stamped only for
`UPLOADED`, otherwise written back to NULL. -/
def update_attachment_status (atts : List AttachmentRec) (attachment_id : Nat)
    (status : AttStatus) (superops_url : Option String)
    (error_message : Option String) (now : Nat) : List AttachmentRec :=
  atts.map fun a =>
    if a.id = attachment_id then
      { a with
        status := status
        superops_url := superops_url
        error_message := error_message
        uploaded_at := if status = AttStatus.uploaded then some now else none }
    else a

/-- `SuperOpsGraphQLClient.get_kb_categories` (graphql_client.py:313-334):
one `getKbItems` query, filter for collections, write every fetched
collection into the client's name → id cache (later writes shadow earlier
cache entries, like Python dict assignment). -/
def getKbCategories (st : OrchState) :
    OrchState × List GatewayCall × List (String × String) :=
  let cats := st.remoteCollections
  let cache := cats.foldl (fun c p => p :: c) st.clientCategoryCache
  ({ st with clientCategoryCache := cache }, [GatewayCall.queryKbItems], cats)

/-- `SuperOpsGraphQLClient.get_or_create_category`
(graphql_client.py:377-401): client cache, else fetch all collections, else
`createKbCollection` mutation (the remote assigns `newId`). -/
def clientGetOrCreateCategory (st : OrchState) (name : String) (newId : String) :
    OrchState × List GatewayCall × String :=
  match st.clientCategoryCache.lookup name with
  | some cid => (st, [], cid)
  | none =>
    let r := getKbCategories st
    let st1 := r.1
    match r.2.2.lookup name with
    | some cid => (st1, r.2.1, cid)
    | none =>
      ({ st1 with
         remoteCollections := st1.remoteCollections ++ [(name, newId)]
         clientCategoryCache := (name, newId) :: st1.clientCategoryCache },
       r.2.1 ++ [GatewayCall.createCollection name], newId)

/-- `MigrationOrchestrator._get_or_create_category`
(orchestrator.py:564-583): the orchestrator's own cache in front of the
client call. -/
def orchGetOrCreateCategory (st : OrchState) (name : String) (newId : String) :
    OrchState × List GatewayCall × String :=
  match st.orchCategoryCache.lookup name with
  | some cid => (st, [], cid)
  | none =>
    let r := clientGetOrCreateCategory st name newId
    ({ r.1 with orchCategoryCache := (name, r.2.2) :: r.1.orchCategoryCache },
     r.2.1, r.2.2)

/-- `MigrationOrchestrator._upload_attachments` (orchestrator.py:475-562),
standard path per attachment: insert a PENDING row (SQLite assigns the next
rowid), perform the one upload network call, then mark the row UPLOADED and
bump `successful_attachments`, or mark it FAILED and bump
`failed_attachments`.  Per-attachment failures are swallowed (the code's
inner `try`/`except`), so this operation raises nothing. -/
def uploadAttachmentsOp (st : OrchState) (docId : String)
    (atts : List AttachmentIn) : OrchState × List GatewayCall :=
  atts.foldl
    (fun acc att =>
      let st := acc.1
      let aid := st.attachments.length + 1
      let row : AttachmentRec :=
        { id := aid, document_id := docId, filename := att.filename
          status := AttStatus.pending, superops_url := none
          error_message := none, uploaded_at := none }
      let st := { st with attachments := st.attachments ++ [row] }
      match att.result_url with
      | some url =>
        let st :=
          { st with
            attachments := update_attachment_status st.attachments aid
              AttStatus.uploaded (some url) none st.clock
            run := { st.run with
                     successful_attachments := st.run.successful_attachments + 1 } }
        (st, acc.2 ++ [GatewayCall.uploadAttachment att.filename])
      | none =>
        let st :=
          { st with
            attachments := update_attachment_status st.attachments aid
              AttStatus.failed none (some "upload failed") st.clock
            run := { st.run with
                     failed_attachments := st.run.failed_attachments + 1 } }
        (st, acc.2 ++ [GatewayCall.uploadAttachment att.filename]))
    (st, [])

/-- `SuperOpsGraphQLClient.create_kb_article` (graphql_client.py:403-481):
with no category id it first resolves/creates the `"General"` collection,
then issues the `createKbArticle` mutation; an empty mutation response
raises. -/
def createKbArticleOp (st : OrchState) (title : String)
    (category_id : Option String) (env : DocEnv) :
    OrchState × List GatewayCall × Except String String :=
  let r :=
    match category_id with
    | some cid => (st, ([] : List GatewayCall), cid)
    | none => clientGetOrCreateCategory st "General" env.new_collection_id
  let calls := r.2.1 ++ [GatewayCall.createArticle title]
  match env.created_article with
  | some aid => (r.1, calls, .ok aid)
  | none => (r.1, calls, .error "Failed to create article: Empty response")

/-- `", ".join(errors)`. -/
def joinErrors : List String → String
  | [] => ""
  | [e] => e
  | e :: rest => e ++ ", " ++ joinErrors rest

/-- `MigrationOrchestrator._handle_document_error`
(orchestrator.py:585-627): mark the document FAILED with the message, bump
`failed_documents`, append to the run's error log, persist the run, and set
the shutdown flag when not configured to continue on error. -/
def handleDocumentError (cfg : MigConfig) (doc : Document) (msg : String)
    (st : OrchState) : OrchState :=
  let st := updateDoc st doc.id DocStatus.failed none (some msg)
  let st :=
    { st with
      run := { st.run with
               failed_documents := st.run.failed_documents + 1
               error_log := st.run.error_log ++ [doc.id ++ ": " ++ msg] } }
  let st := persistRun st
  if cfg.continue_on_error then st else { st with shutdown := true }

/-- The `try` body of `MigrationOrchestrator._process_document`
(orchestrator.py:348-469), step by step in source order: mark IN_PROGRESS,
resolve metadata (raise when absent), missing-file skip (NOTE: no counter is
touched), optional skip-existing check, parse, validate, transform, upload
attachments (unless dry-run), resolve/create the category, create the
article (a dry run synthesizes `dry-run-<id>` instead), mark COMPLETED, bump
`successful_documents` and persist the run. -/
def processDocumentBody (cfg : MigConfig) (env : DocEnv) (doc : Document)
    (st : OrchState) : OrchState × List GatewayCall × Except String Unit :=
  let st := updateDoc st doc.id DocStatus.inProgress
  if ¬env.in_metadata then
    (st, [], .error ("Metadata not found for document " ++ doc.id))
  else if ¬env.file_on_disk then
    (updateDoc st doc.id DocStatus.skipped none (some "File not found"), [], .ok ())
  else if cfg.skip_existing ∧ (env.existing_article).isSome then
    match env.existing_article with
    | some eid =>
      (updateDoc st doc.id DocStatus.skipped (some eid) (some "Already exists"),
       [GatewayCall.checkExists doc.title], .ok ())
    | none => (st, [], .ok ())
  else
    let cs0 : List GatewayCall :=
      if cfg.skip_existing then [GatewayCall.checkExists doc.title] else []
    match env.parse_error with
    | some msg => (st, cs0, .error msg)
    | none =>
      if env.validation_errors ≠ [] ∧ ¬cfg.continue_on_error then
        (st, cs0, .error ("Validation errors: " ++ joinErrors env.validation_errors))
      else if env.transform_errors ≠ [] ∧ ¬cfg.continue_on_error then
        (st, cs0,
         .error ("Transformation errors: " ++ joinErrors env.transform_errors))
      else
        let up :=
          if env.transformed_attachments ≠ [] ∧ ¬cfg.dry_run then
            uploadAttachmentsOp st doc.id env.transformed_attachments
          else (st, [])
        let cat :=
          match env.transformed_category with
          | some name =>
            let r := orchGetOrCreateCategory up.1 name env.new_collection_id
            (r.1, r.2.1, some r.2.2)
          | none => (up.1, ([] : List GatewayCall), (none : Option String))
        if cfg.dry_run then
          let sid := "dry-run-" ++ doc.id
          let st := updateDoc cat.1 doc.id DocStatus.completed (some sid)
          let st :=
            { st with
              run := { st.run with
                       successful_documents := st.run.successful_documents + 1 } }
          (persistRun st, cs0 ++ up.2 ++ cat.2.1, .ok ())
        else
          let ar := createKbArticleOp cat.1 doc.title cat.2.2 env
          match ar.2.2 with
          | .error msg => (ar.1, cs0 ++ up.2 ++ cat.2.1 ++ ar.2.1, .error msg)
          | .ok sid =>
            let st := updateDoc ar.1 doc.id DocStatus.completed (some sid)
            let st :=
              { st with
                run := { st.run with
                         successful_documents := st.run.successful_documents + 1 } }
            (persistRun st, cs0 ++ up.2 ++ cat.2.1 ++ ar.2.1, .ok ())

/-- `_process_document` including its `except` clause
(orchestrator.py:471-473): the error is handled by
`_handle_document_error` *and re-raised*. -/
def processDocument (cfg : MigConfig) (env : DocEnv) (doc : Document)
    (st : OrchState) : OrchState × List GatewayCall × Except String Unit :=
  match processDocumentBody cfg env doc st with
  | (st, cs, .ok ()) => (st, cs, .ok ())
  | (st, cs, .error e) => (handleDocumentError cfg doc e st, cs, .error e)

/-- One document as driven by the batch loop of `_process_documents`
(orchestrator.py:327-334): `asyncio.gather(..., return_exceptions=True)`
hands the re-raised exception back, and the loop calls
`_handle_document_error` on it a second time. -/
def processDocumentInBatch (cfg : MigConfig) (env : DocEnv) (doc : Document)
    (st : OrchState) : OrchState × List GatewayCall :=
  match processDocument cfg env doc st with
  | (st, cs, .ok ()) => (st, cs)
  | (st, cs, .error e) => (handleDocumentError cfg doc e st, cs)

/-- The documents of one batch, one after the other.  (In the source the
batch members run concurrently; they touch disjoint document rows and the
shared run counters, and this sequential composition is the interleaving the
scenario claims are stated over.) -/
def processBatch (cfg : MigConfig) (envOf : String → DocEnv)
    (batch : List Document) (st : OrchState) : OrchState × List GatewayCall :=
  batch.foldl
    (fun acc d =>
      let r := processDocumentInBatch cfg (envOf d.id) d acc.1
      (r.1, acc.2 ++ r.2))
    (st, [])

/-- `_process_documents` (orchestrator.py:306-346): fixed-size batches in
order, stopping after a batch once the shutdown flag is set.  Fuel bounds the
number of batches; `docs.length` is always enough for `batch_size ≥ 1`. -/
def processBatches (cfg : MigConfig) (envOf : String → DocEnv) :
    Nat → List Document → OrchState → OrchState × List GatewayCall
  | 0, _, st => (st, [])
  | _ + 1, [], st => (st, [])
  | fuel + 1, d :: ds, st =>
    let batch := (d :: ds).take cfg.batch_size
    let rest := (d :: ds).drop cfg.batch_size
    let r := processBatch cfg envOf batch st
    if r.1.shutdown then r
    else
      let r' := processBatches cfg envOf fuel rest r.1
      (r'.1, r.2 ++ r'.2)

/-! ### Work-list construction (`_get_documents_to_migrate`,
`CSVMetadataParser.get_migration_order`). -/

/-- One row of the in-memory CSV metadata cache (`DocumentMetadata`). -/
structure DocMeta where
  locator : String
  name : String
  organization : String
  related_documents : List String
  deriving DecidableEq, Repr

/-- Lexicographic comparison of character lists by Unicode scalar value. -/
def strLeAux : List Char → List Char → Bool
  | [], _ => true
  | _ :: _, [] => false
  | x :: xs, y :: ys =>
    if x.toNat < y.toNat then true
    else if y.toNat < x.toNat then false
    else strLeAux xs ys

/-- String order used by SQLite's `ORDER BY` on a TEXT column (byte order,
which for UTF-8 equals scalar-value order). -/
def strLe (a b : String) : Bool := strLeAux a.data b.data

/-- Stable insertion: place `x` before the first element it is `le` to.
`sortLe` is a stable ascending sort, the behaviour of Python's `list.sort`. -/
def insertLe (le : α → α → Bool) (x : α) : List α → List α
  | [] => [x]
  | y :: ys => if le x y then x :: y :: ys else y :: insertLe le x ys

def sortLe (le : α → α → Bool) (l : List α) : List α :=
  l.foldr (insertLe le) []

/-- `CSVMetadataParser.build_dependency_graph` (csv_parser.py:328-337):
locator ↦ its related documents.  (The Python value is a `set`; its
enumeration order is modelled by the list order.) -/
def buildDependencyGraph (metadata : List DocMeta) : List (String × List String) :=
  metadata.map fun m => (m.locator, m.related_documents)

/-- The recursive `visit` of `get_migration_order` (csv_parser.py:352-358):
depth-first post-order, so a document's dependencies are appended before the
document.  `visit` is also invoked on locators absent from the graph
(`graph.get(node, set())` defaults to empty), which are appended too.
Fuel bounds the recursion depth; the number of graph nodes plus all edge
endpoints is always enough. -/
def visitNode (graph : List (String × List String)) :
    Nat → String → List String × List String → List String × List String
  | 0, _, acc => acc
  | fuel + 1, node, acc =>
    if node ∈ acc.1 then acc
    else
      let acc1 := (node :: acc.1, acc.2)
      let deps := (graph.lookup node).getD []
      let acc2 := deps.foldl (fun a dep => visitNode graph fuel dep a) acc1
      (acc2.1, acc2.2 ++ [node])

/-- `get_migration_order` (csv_parser.py:339-364): visit every metadata
entry in cache (insertion) order. -/
def get_migration_order (metadata : List DocMeta) : List String :=
  let graph := buildDependencyGraph metadata
  let fuel := metadata.foldl (fun n m => n + 1 + m.related_documents.length) 1
  (metadata.foldl (fun acc m => visitNode graph fuel m.locator acc) ([], [])).2

/-- `order_map.get(d.id, len(order_map))`: position of `id` in the migration
order, defaulting to the order's length. -/
def orderKey (order : List String) (id : String) : Nat :=
  go order 0
where
  go : List String → Nat → Nat
    | [], n => n
    | x :: xs, n => if x = id then n else go xs (n + 1)

/-- `_get_documents_to_migrate` (orchestrator.py:262-304) without the regex
filter: fetch PENDING documents (`ORDER BY id`, the TEXT primary key),
optionally truncate to `limit`, then stable-sort by the migration order. -/
def getDocumentsToMigrate (st : OrchState) (limit : Option Nat)
    (order : List String) : List Document :=
  let documents :=
    sortLe (fun a b => strLe a.id b.id)
      (st.documents.filter (fun d => d.status = DocStatus.pending))
  let documents :=
    match limit with
    | some n => documents.take n
    | none => documents
  sortLe (fun a b => orderKey order a.id ≤ orderKey order b.id) documents

/-! ### Run creation, cancellation, run-level outcome. -/

/-- `_create_migration_run` (orchestrator.py:182-234): one PENDING document
row per metadata entry, and a fresh run whose `total_documents` is the
metadata count. -/
def createRunState (metadata : List DocMeta) : OrchState :=
  let docs : List Document := metadata.map fun m =>
    { id := m.locator, title := m.name, organization := m.organization
      status := DocStatus.pending, superops_id := none, error_message := none
      processed_at := none, content_hash := none }
  { documents := docs
    attachments := []
    run := MigrationRun.fresh metadata.length
    runPersisted := MigrationRun.fresh metadata.length
    orchCategoryCache := []
    clientCategoryCache := []
    remoteCollections := []
    shutdown := false
    clock := 0 }

/-- The distinguishable ways `migrate` can come back to its caller. -/
inductive MigrateOutcome
  | completedRun
  | cancelled
  | failedRun (msg : String)
  deriving DecidableEq, Repr

/-- `_handle_cancellation` (orchestrator.py:647-668): re-fetch the
IN_PROGRESS documents, reset each to PENDING through
`update_document_status`, then persist the current run counters. -/
def handleCancellation (st : OrchState) : OrchState :=
  let in_progress :=
    sortLe (fun a b => strLe a.id b.id)
      (st.documents.filter (fun d => d.status = DocStatus.inProgress))
  let docs :=
    in_progress.foldl
      (fun ds d => update_document_status ds d.id DocStatus.pending none none st.clock)
      st.documents
  persistRun { st with documents := docs }

/-- The `except asyncio.CancelledError` arm of `migrate`
(orchestrator.py:166-169): run `_handle_cancellation`, then re-raise the
`CancelledError` — a distinguished outcome, unlike the generic `except
Exception` arm which produces a failed run. -/
def migrateOnCancel (st : OrchState) : OrchState × MigrateOutcome :=
  (handleCancellation st, MigrateOutcome.cancelled)

/-- A sample row used in concrete evaluations. -/
def sampleDoc : Document :=
  { id := "DOC-100-0000001"
    title := "Network Setup"
    organization := "Acme"
    status := DocStatus.pending
    superops_id := none
    error_message := none
    processed_at := none
    content_hash := none }

/-- Number of document rows currently in the given status (the aggregate the
spec says the counters must equal, cf. `Database.get_statistics`). -/
def countDocStatus (docs : List Document) (s : DocStatus) : Nat :=
  (docs.filter (fun d => d.status = s)).length

/-- Default migration configuration slice: live run, no skip-existing,
continue on error, batch size 10. -/
def cfgDefault : MigConfig :=
  { dry_run := false, skip_existing := false, continue_on_error := true
    batch_size := 10 }

/-- Initial single-document run state for the per-document scenarios. -/
def stOne : OrchState :=
  createRunState
    [{ locator := "DOC-100-0000001", name := "Network Setup"
       organization := "Acme", related_documents := [] }]

/-- Environment of a document whose backing HTML file is absent from disk. -/
def envNoFile : DocEnv := { DocEnv.allOk with file_on_disk := false }

/-- Environment of a document missing from the CSV metadata cache, which
makes `_process_document` raise after the IN_PROGRESS marking. -/
def envNoMeta : DocEnv := { DocEnv.allOk with in_metadata := false }

/-- State after the batch loop has driven `sampleDoc` with a missing backing
file. -/
def stAfterNoFile : OrchState :=
  (processDocumentInBatch cfgDefault envNoFile sampleDoc stOne).1

/-- State after the batch loop has driven `sampleDoc` whose processing raised
past the IN_PROGRESS marking (metadata missing from the cache). -/
def stAfterRaise : OrchState :=
  (processDocumentInBatch cfgDefault envNoMeta sampleDoc stOne).1

/-- C1: the claimed invariant — run counters always equal the aggregate of
record statuses, and every SKIPPED transition increments the skipped
counter — fails on the code: after processing a document whose backing file
is missing, the run holds exactly one SKIPPED document record while
`skipped_documents` still reads 0 (no code path ever increments it). -/
theorem skipped_counter_diverges_from_aggregate :
    countDocStatus stAfterNoFile.documents DocStatus.skipped = 1
      ∧ stAfterNoFile.run.skipped_documents = 0
      ∧ stAfterNoFile.runPersisted.skipped_documents = 0
      ∧ ¬(stAfterNoFile.run.skipped_documents
            = countDocStatus stAfterNoFile.documents DocStatus.skipped) := by
  decide

/-- C2: a failure past the IN_PROGRESS marking is recorded twice, not once:
`_process_document` handles the exception and re-raises it, and the batch
loop of `_process_documents` handles the same exception again — so
`failed_documents` grows by 2 and the error message is appended to the run's
error log twice for one failing document. -/
theorem document_failure_recorded_twice :
    stAfterRaise.run.failed_documents = 2
      ∧ stAfterRaise.run.error_log =
          ["DOC-100-0000001: Metadata not found for document DOC-100-0000001",
           "DOC-100-0000001: Metadata not found for document DOC-100-0000001"]
      ∧ countDocStatus stAfterRaise.documents DocStatus.failed = 1
      ∧ ¬(stAfterRaise.run.failed_documents
            = countDocStatus stAfterRaise.documents DocStatus.failed) := by
  decide

/-- C3: with the backing HTML file absent, the document ends SKIPPED (not
FAILED) with the error message "File not found" (which carries the words
"not found"), and no exception escapes `_process_document`; but the run's
skipped counter is NOT incremented — it stays at 0 where the claim requires
an increment by 1. -/
theorem missing_file_skips_without_counting :
    (stAfterNoFile.documents.filter
        (fun d => d.id = "DOC-100-0000001")).map Document.status = [DocStatus.skipped]
      ∧ (stAfterNoFile.documents.filter
          (fun d => d.id = "DOC-100-0000001")).map Document.error_message
          = [some ("File " ++ "not found")]
      ∧ (processDocument cfgDefault envNoFile sampleDoc stOne).2.2 = Except.ok ()
      ∧ stAfterNoFile.run.failed_documents = 0
      ∧ stAfterNoFile.run.skipped_documents = stOne.run.skipped_documents
      ∧ stOne.run.skipped_documents = 0 := by
  refine ⟨by decide, by decide, rfl, by decide, by decide, by decide⟩

/-- C4 counterexample: a plain 404 — a 4xx that is not a rate limit — does
NOT fail immediately: `httpx.HTTPStatusError` is a subclass of
`httpx.HTTPError`, which `tenacity` is told to retry, so three attempts are
made (with backoff sleeps 4s and 8s) before the error surfaces. -/
theorem c4_counterexample_404_is_retried :
    (executeWithRetry
        [Attempt.response 404 Body.notJson, Attempt.response 404 Body.notJson,
         Attempt.response 404 Body.notJson]).attemptsMade = 3
      ∧ (executeWithRetry
          [Attempt.response 404 Body.notJson, Attempt.response 404 Body.notJson,
           Attempt.response 404 Body.notJson]).waits = [4, 8]
      ∧ (executeWithRetry
          [Attempt.response 404 Body.notJson, Attempt.response 404 Body.notJson,
           Attempt.response 404 Body.notJson]).outcome
          = Except.error (ExecError.httpStatusError 404)
      ∧ ¬(executeWithRetry
          [Attempt.response 404 Body.notJson, Attempt.response 404 Body.notJson,
           Attempt.response 404 Body.notJson]).attemptsMade = 1 := by
  exact ⟨rfl, rfl, rfl, by decide⟩

/-- C4 as amended: transient transport errors are retried up to 3 attempts
with exponential backoff (multiplier 2, floor 4s, ceiling 60s: sleeps 4s
then 8s) before the error surfaces; a malformed (non-JSON) response and a
response with an embedded GraphQL error list fail on the first attempt
without any retry; but an HTTP 4xx status without a JSON error body — rate
limit or not — is retried exactly like a transient error, because the retry
predicate matches every `httpx.HTTPError`. -/
theorem retry_policy_amended (rest : List Attempt) :
    ((executeWithRetry (Attempt.transportError :: Attempt.transportError ::
        Attempt.transportError :: rest)).attemptsMade = 3
      ∧ (executeWithRetry (Attempt.transportError :: Attempt.transportError ::
          Attempt.transportError :: rest)).waits = [4, 8]
      ∧ (executeWithRetry (Attempt.transportError :: Attempt.transportError ::
          Attempt.transportError :: rest)).outcome
          = Except.error ExecError.httpTransportError)
    ∧ ((executeWithRetry (Attempt.response 200 Body.notJson :: rest)).attemptsMade = 1
        ∧ (executeWithRetry (Attempt.response 200 Body.notJson :: rest)).outcome
            = Except.error ExecError.jsonDecodeError)
    ∧ ((executeWithRetry (Attempt.response 200 Body.jsonWithErrors :: rest)).attemptsMade = 1
        ∧ (executeWithRetry (Attempt.response 200 Body.jsonWithErrors :: rest)).outcome
            = Except.error ExecError.graphqlError)
    ∧ (executeWithRetry (Attempt.response 404 Body.notJson ::
        Attempt.response 404 Body.notJson :: Attempt.response 404 Body.notJson ::
        rest)).attemptsMade = 3
    ∧ (∀ code : Nat, 400 ≤ code →
        (executeWithRetry (Attempt.response code Body.jsonWithErrors :: rest)).attemptsMade
          = 1) := by
  refine ⟨⟨rfl, rfl, rfl⟩, ⟨rfl, rfl⟩, ⟨rfl, rfl⟩, rfl, ?_⟩
  intro code hcode
  simp [executeWithRetry, retryLoop, execOnce, retriable, if_pos hcode]

/-- Witness for the amended C4 retry-policy theorem at a concrete error
stream and concrete status code. -/
theorem retry_policy_amended_witness :
    (400 ≤ 500)
      ∧ (executeWithRetry
          [Attempt.response 500 Body.jsonWithErrors]).attemptsMade = 1 :=
  ⟨by decide, (retry_policy_amended []).2.2.2.2 500 (by decide)⟩

/-- Configuration with dry-run enabled. -/
def cfgDry : MigConfig := { cfgDefault with dry_run := true }

/-- Environment of a document whose transformation yields the category
"Networking", which exists neither in any cache nor remotely. -/
def envCat : DocEnv := { DocEnv.allOk with transformed_category := some "Networking" }

/-- C5 counterexample: in dry-run mode, processing a document whose
transformed category is unknown still performs a remote
`createKbCollection` mutation — the category resolution
(orchestrator.py:429-432) is not guarded by the dry-run flag. -/
theorem c5_counterexample_dry_run_creates_collection :
    GatewayCall.createCollection "Networking"
        ∈ (processDocument cfgDry envCat sampleDoc stOne).2.1
      ∧ (processDocument cfgDry envCat sampleDoc stOne).1.remoteCollections
          = [("Networking", "COL-NEW")] := by
  decide

/-- The calls of `_process_document` are exactly the calls of its `try`
body: the `except` arm only records the failure, it performs no network
call. -/
theorem processDocument_calls_eq (cfg : MigConfig) (env : DocEnv) (doc : Document)
    (st : OrchState) :
    (processDocument cfg env doc st).2.1 = (processDocumentBody cfg env doc st).2.1 := by
  unfold processDocument
  rcases h : processDocumentBody cfg env doc st with ⟨st', cs, r⟩
  rcases r with ⟨⟩ | e <;> simp

/-- Calls of the client-level category get-or-create: at most one
`getKbItems` query and one `createKbCollection` mutation. -/
theorem clientGetOrCreateCategory_calls (st : OrchState) (name newId : String) :
    ∀ c ∈ (clientGetOrCreateCategory st name newId).2.1,
      c = GatewayCall.queryKbItems ∨ c = GatewayCall.createCollection name := by
  intro c hc
  simp only [clientGetOrCreateCategory, getKbCategories] at hc
  split at hc
  · simp at hc
  · split at hc <;> simp at hc <;> tauto

/-- Calls of the orchestrator-level category get-or-create: same bound. -/
theorem orchGetOrCreateCategory_calls (st : OrchState) (name newId : String) :
    ∀ c ∈ (orchGetOrCreateCategory st name newId).2.1,
      c = GatewayCall.queryKbItems ∨ c = GatewayCall.createCollection name := by
  intro c hc
  simp only [orchGetOrCreateCategory] at hc
  split at hc
  · simp at hc
  · exact clientGetOrCreateCategory_calls st name newId c hc

/-- In dry-run mode the calls of the `try` body of `_process_document` are
contained in: the existence check, `getKbItems` queries and
`createKbCollection` mutations — never an article creation and never an
attachment upload. -/
theorem processDocumentBody_calls_dry (cfg : MigConfig) (env : DocEnv)
    (doc : Document) (st : OrchState) (hdry : cfg.dry_run = true) :
    ∀ c ∈ (processDocumentBody cfg env doc st).2.1,
      c = GatewayCall.queryKbItems
        ∨ (∃ n, c = GatewayCall.createCollection n)
        ∨ c = GatewayCall.checkExists doc.title := by
  intro c hc
  have hcs0 : ∀ x ∈ (if cfg.skip_existing then
      [GatewayCall.checkExists doc.title] else ([] : List GatewayCall)),
      x = GatewayCall.checkExists doc.title := by
    intro x hx
    split at hx <;> simp at hx
    exact hx
  simp only [processDocumentBody] at hc
  split at hc
  · simp at hc
  · split at hc
    · simp at hc
    · split at hc
      · split at hc <;> simp at hc
        exact Or.inr (Or.inr hc)
      · split at hc
        · exact Or.inr (Or.inr (hcs0 c hc))
        · split at hc
          · exact Or.inr (Or.inr (hcs0 c hc))
          · split at hc
            · exact Or.inr (Or.inr (hcs0 c hc))
            · have hnd : ¬(env.transformed_attachments ≠ [] ∧ ¬cfg.dry_run = true) := by
                rintro ⟨-, h⟩
                exact h hdry
              rw [if_neg hnd] at hc
              rcases htc : env.transformed_category with _ | name <;>
                simp only [htc, List.mem_append] at hc
              · rcases hc with (hc | hc) | hc <;> first
                  | exact Or.inr (Or.inr (hcs0 c hc))
                  | simp at hc
              · rcases hc with (hc | hc) | hc
                · exact Or.inr (Or.inr (hcs0 c hc))
                · simp at hc
                · rcases orchGetOrCreateCategory_calls _ name
                      env.new_collection_id c hc with h | h
                  · exact Or.inl h
                  · exact Or.inr (Or.inl ⟨name, h⟩)

/-- C5 as amended: in dry-run mode, processing a document performs no
article-creation call and no attachment-upload call, and (concrete
scenario) synthesizes the placeholder remote id `dry-run-<document id>`,
bumps the success counter, and drives the document through the same
state-store status transitions as a live run — but the category/collection
resolution still runs against the remote service and may create a
collection (see the counterexample). -/
theorem dry_run_skips_creation_calls (cfg : MigConfig) (env : DocEnv)
    (doc : Document) (st : OrchState) (hdry : cfg.dry_run = true) :
    ((∀ t, GatewayCall.createArticle t ∉ (processDocument cfg env doc st).2.1)
      ∧ (∀ f, GatewayCall.uploadAttachment f ∉ (processDocument cfg env doc st).2.1))
    ∧ ((processDocument cfgDry envCat sampleDoc stOne).1.documents.map
          Document.superops_id = [some ("dry-run-" ++ "DOC-100-0000001")]
      ∧ (processDocument cfgDry envCat sampleDoc stOne).1.documents.map
          Document.status
          = (processDocument cfgDefault envCat sampleDoc stOne).1.documents.map
              Document.status
      ∧ (processDocument cfgDry envCat sampleDoc stOne).1.run.successful_documents
          = 1
      ∧ (processDocument cfgDry envCat sampleDoc stOne).2.2 = Except.ok ()) := by
  constructor
  · constructor
    · intro t ht
      rw [processDocument_calls_eq] at ht
      rcases processDocumentBody_calls_dry cfg env doc st hdry _ ht with h | ⟨n, h⟩ | h <;>
        simp at h
    · intro f hf
      rw [processDocument_calls_eq] at hf
      rcases processDocumentBody_calls_dry cfg env doc st hdry _ hf with h | ⟨n, h⟩ | h <;>
        simp at h
  · exact ⟨by decide, by decide, by decide, rfl⟩

/-- Witness for the amended dry-run theorem at the concrete dry-run
configuration and scenario. -/
theorem dry_run_skips_creation_calls_witness :
    cfgDry.dry_run = true
      ∧ (∀ t, GatewayCall.createArticle t
            ∉ (processDocument cfgDry envCat sampleDoc stOne).2.1) :=
  ⟨rfl, (dry_run_skips_creation_calls cfgDry envCat sampleDoc stOne rfl).1.1⟩

/-! ### Cancellation (C6): helper lemmas about the reset-to-pending fold. -/

/-- Membership is invariant under `insertLe`. -/
theorem mem_insertLe (le : α → α → Bool) (x a : α) (l : List α) :
    a ∈ insertLe le x l ↔ a = x ∨ a ∈ l := by
  induction l with
  | nil => simp [insertLe]
  | cons y ys ih =>
    by_cases h : le x y = true
    · simp [insertLe, h]
    · simp [insertLe, h, ih]
      tauto

/-- Membership is invariant under the stable sort. -/
theorem mem_sortLe (le : α → α → Bool) (a : α) (l : List α) :
    a ∈ sortLe le l ↔ a ∈ l := by
  induction l with
  | nil => simp [sortLe]
  | cons y ys ih => simp [sortLe, mem_insertLe, List.foldr_cons]; rw [← sortLe]; simp [ih]

/-- Cumulative effect on one row of resetting every document of `l` to
PENDING (the fold inside `_handle_cancellation`). -/
def cancelSteps (l : List Document) (now : Nat) (x : Document) : Document :=
  l.foldl (fun x d => updOne d.id DocStatus.pending none none now x) x

/-- The cancellation fold over the whole table is a pointwise map. -/
theorem cancel_fold_eq_map (l : List Document) (now : Nat) (docs : List Document) :
    l.foldl
        (fun ds d => update_document_status ds d.id DocStatus.pending none none now)
        docs
      = docs.map (cancelSteps l now) := by
  induction l generalizing docs with
  | nil =>
    rw [List.foldl_nil, show cancelSteps [] now = id from funext fun x => rfl,
      List.map_id]
  | cons d l ih =>
    rw [List.foldl_cons, ih, update_document_status, List.map_map]
    rfl

/-- Resetting never changes a row's id. -/
theorem cancelSteps_id (l : List Document) (now : Nat) (x : Document) :
    (cancelSteps l now x).id = x.id := by
  induction l generalizing x with
  | nil => rfl
  | cons d l ih =>
    show (cancelSteps l now (updOne d.id DocStatus.pending none none now x)).id = x.id
    rw [ih]
    unfold updOne
    by_cases h : x.id = d.id <;> simp [h]

/-- A row whose id is not among the reset ids is untouched. -/
theorem cancelSteps_not_mem (l : List Document) (now : Nat) (x : Document)
    (h : x.id ∉ l.map Document.id) : cancelSteps l now x = x := by
  induction l generalizing x with
  | nil => rfl
  | cons d l ih =>
    simp only [List.map_cons, List.mem_cons, not_or] at h
    show cancelSteps l now (updOne d.id DocStatus.pending none none now x) = x
    rw [show updOne d.id DocStatus.pending none none now x = x from by
      unfold updOne; simp [h.1]]
    exact ih x h.2

/-- A row whose id is among the reset ids ends PENDING. -/
theorem cancelSteps_mem (l : List Document) (now : Nat) (x : Document)
    (h : x.id ∈ l.map Document.id) :
    (cancelSteps l now x).status = DocStatus.pending := by
  induction l generalizing x with
  | nil => simp at h
  | cons d l ih =>
    show (cancelSteps l now (updOne d.id DocStatus.pending none none now x)).status
        = DocStatus.pending
    by_cases hxd : x.id = d.id
    · have hyst : (updOne d.id DocStatus.pending none none now x).status
          = DocStatus.pending := by
        unfold updOne
        simp [hxd]
      by_cases hmem : (updOne d.id DocStatus.pending none none now x).id
          ∈ l.map Document.id
      · exact ih _ hmem
      · rw [cancelSteps_not_mem l now _ hmem]
        exact hyst
    · have hupd : updOne d.id DocStatus.pending none none now x = x := by
        unfold updOne
        simp [hxd]
      rw [hupd]
      simp only [List.map_cons, List.mem_cons] at h
      rcases h with h | h
      · exact absurd h hxd
      · exact ih x h

/-- C6: on cancellation, `_handle_cancellation` reverts every IN_PROGRESS
document to PENDING — afterwards no row is IN_PROGRESS, no row is dropped
(same length, ids preserved positionally) — the run's current counters are
persisted, and the outcome is the distinguished cancellation, not a generic
failure. -/
theorem cancellation_reverts_in_progress (st : OrchState) :
    ((migrateOnCancel st).2 = MigrateOutcome.cancelled
      ∧ ∀ msg, (migrateOnCancel st).2 ≠ MigrateOutcome.failedRun msg)
    ∧ (migrateOnCancel st).1.documents.length = st.documents.length
    ∧ (∀ d' ∈ (migrateOnCancel st).1.documents, d'.status ≠ DocStatus.inProgress)
    ∧ (∀ k (hk : k < st.documents.length)
        (hk' : k < (migrateOnCancel st).1.documents.length),
        ((migrateOnCancel st).1.documents.get ⟨k, hk'⟩).id
            = (st.documents.get ⟨k, hk⟩).id
        ∧ ((st.documents.get ⟨k, hk⟩).status = DocStatus.inProgress →
            ((migrateOnCancel st).1.documents.get ⟨k, hk'⟩).status
              = DocStatus.pending))
    ∧ (migrateOnCancel st).1.runPersisted = st.run := by
  have hmap : (migrateOnCancel st).1.documents
      = st.documents.map
          (cancelSteps
            (sortLe (fun a b => strLe a.id b.id)
              (st.documents.filter (fun d => d.status = DocStatus.inProgress)))
            st.clock) := by
    simp only [migrateOnCancel, handleCancellation, persistRun]
    exact cancel_fold_eq_map _ _ _
  set l := sortLe (fun a b => strLe a.id b.id)
    (st.documents.filter (fun d => d.status = DocStatus.inProgress)) with hl
  have hin : ∀ d : Document, d ∈ st.documents →
      d.status = DocStatus.inProgress → d.id ∈ l.map Document.id := by
    intro d hd hs
    exact List.mem_map.mpr
      ⟨d, (mem_sortLe _ _ _).mpr (List.mem_filter.mpr ⟨hd, by simp [hs]⟩), rfl⟩
  refine ⟨⟨rfl, by intro msg; simp [migrateOnCancel]⟩, ?_, ?_, ?_, ?_⟩
  · rw [hmap]; simp
  · intro d' hd'
    rw [hmap] at hd'
    rcases List.mem_map.mp hd' with ⟨d, hd, rfl⟩
    by_cases hmem : d.id ∈ l.map Document.id
    · rw [cancelSteps_mem l st.clock d hmem]
      simp
    · rw [cancelSteps_not_mem l st.clock d hmem]
      intro hcon
      exact hmem (hin d hd hcon)
  · intro k hk hk'
    have hget : (migrateOnCancel st).1.documents.get ⟨k, hk'⟩
        = cancelSteps l st.clock (st.documents.get ⟨k, hk⟩) := by
      rw [List.get_of_eq hmap]
      simp [List.get_eq_getElem, List.getElem_map]
    constructor
    · rw [hget, cancelSteps_id]
    · intro hs
      rw [hget]
      exact cancelSteps_mem l st.clock _
        (hin _ (st.documents.get_mem _ _) hs)
  · simp [migrateOnCancel, handleCancellation, persistRun]

/-- Concrete two-document state with one document left IN_PROGRESS, used to
witness the cancellation theorem. -/
def stCancel : OrchState :=
  { documents :=
      [{ sampleDoc with status := DocStatus.inProgress },
       { sampleDoc with id := "DOC-100-0000002", status := DocStatus.completed }]
    attachments := []
    run := { MigrationRun.fresh 2 with successful_documents := 1 }
    runPersisted := MigrationRun.fresh 2
    orchCategoryCache := []
    clientCategoryCache := []
    remoteCollections := []
    shutdown := false
    clock := 5 }

/-- Witness for the cancellation theorem: in `stCancel` the first document
is IN_PROGRESS and after cancellation it reads PENDING, with the
distinguished cancelled outcome. -/
theorem cancellation_reverts_in_progress_witness :
    (stCancel.documents.get ⟨0, by decide⟩).status = DocStatus.inProgress
      ∧ ((migrateOnCancel stCancel).1.documents.get ⟨0, by decide⟩).status
          = DocStatus.pending
      ∧ (migrateOnCancel stCancel).2 = MigrateOutcome.cancelled :=
  ⟨by decide,
   ((cancellation_reverts_in_progress stCancel).2.2.2.1 0 (by decide)
       (by decide)).2 (by decide),
   (cancellation_reverts_in_progress stCancel).1.1⟩

/-! ### Upload deduplication (C7). -/

/-- C7: uploading the same byte sequence twice, where the first call's upload
succeeds with a URL, performs exactly one network upload in total: the first
call uploads (one network call) and caches the URL under the content hash;
the second call — whatever the server would have answered — returns a
successful result carrying the cached URL with zero network calls.  This
holds for every hash function (SHA-256 is one), every client state whose
cache does not already hold the hash, and every size within the cap. -/
theorem upload_same_bytes_dedup (hash : List Nat → String) (st : AttClient)
    (data : List Nat) (fn fn2 : String) (resp2 : UploadServerResp) (u : String)
    (hsize : data.length ≤ st.max_file_size)
    (hmiss : st.file_cache.lookup (hash data) = none) :
    (upload_bytes hash st data fn (UploadServerResp.fileData (some u))).2.2 = 1
      ∧ (upload_bytes hash st data fn (UploadServerResp.fileData (some u))).2.1.success
          = true
      ∧ (upload_bytes hash st data fn (UploadServerResp.fileData (some u))).2.1.url
          = some u
      ∧ (upload_bytes hash
            (upload_bytes hash st data fn (UploadServerResp.fileData (some u))).1
            data fn2 resp2).2.2 = 0
      ∧ (upload_bytes hash
            (upload_bytes hash st data fn (UploadServerResp.fileData (some u))).1
            data fn2 resp2).2.1.success = true
      ∧ (upload_bytes hash
            (upload_bytes hash st data fn (UploadServerResp.fileData (some u))).1
            data fn2 resp2).2.1.url = some u := by
  have hno : ¬st.max_file_size < data.length := Nat.not_lt.mpr hsize
  have h1 : upload_bytes hash st data fn (UploadServerResp.fileData (some u))
      = ({ st with file_cache := (hash data, u) :: st.file_cache },
         { success := true, filename := fn, file_size := data.length
           url := some u, error := none }, 1) := by
    unfold upload_bytes
    rw [if_neg hno]
    simp [hmiss, upload_bytes_internal]
  rw [h1]
  refine ⟨rfl, rfl, rfl, ?_⟩
  have h2 : upload_bytes hash
      ({ st with file_cache := (hash data, u) :: st.file_cache }) data fn2 resp2
      = ({ st with file_cache := (hash data, u) :: st.file_cache },
         { success := true, filename := fn2, file_size := data.length
           url := some u, error := none }, 0) := by
    unfold upload_bytes
    rw [if_neg hno]
    simp [List.lookup]
  rw [h2]
  exact ⟨rfl, rfl, rfl⟩

/-- Witness for the deduplication theorem at a concrete hash function, byte
string and client. -/
theorem upload_same_bytes_dedup_witness :
    ([2, 3, 5].length ≤ 100
      ∧ (List.lookup ((fun _ => "h-235") [2, 3, 5])
          (AttClient.mk 100 []).file_cache) = none)
    ∧ ((upload_bytes (fun _ => "h-235") (AttClient.mk 100 []) [2, 3, 5] "a.png"
        (UploadServerResp.fileData (some "https://cdn/x"))).2.2 = 1
      ∧ (upload_bytes (fun _ => "h-235")
          (upload_bytes (fun _ => "h-235") (AttClient.mk 100 []) [2, 3, 5] "a.png"
            (UploadServerResp.fileData (some "https://cdn/x"))).1
          [2, 3, 5] "b.png" UploadServerResp.noData).2.2 = 0) :=
  ⟨⟨by decide, by decide⟩,
   (upload_same_bytes_dedup (fun _ => "h-235") (AttClient.mk 100 []) [2, 3, 5]
      "a.png" "b.png" UploadServerResp.noData "https://cdn/x" (by decide)
      (by decide)).1,
   (upload_same_bytes_dedup (fun _ => "h-235") (AttClient.mk 100 []) [2, 3, 5]
      "a.png" "b.png" UploadServerResp.noData "https://cdn/x" (by decide)
      (by decide)).2.2.2.1⟩

/-! ### Rate limiter (C8). -/

/-- The wait loop never pushes the bucket above `rate`: every refill clamps
with `min rate`, and sleeping does not add tokens by itself. -/
theorem acquireLoop_tokens_le (fuel : Nat) (s : RateLimiter) (now w : ℚ)
    (h : s.tokens ≤ s.rate) : (acquireLoop fuel s now w).1.tokens ≤ s.rate := by
  induction fuel generalizing s now w with
  | zero => exact h
  | succ n ih =>
    unfold acquireLoop
    by_cases h1 : s.tokens ≤ 0
    · rw [if_pos h1]
      by_cases h2 :
          ({ s with
             tokens := min s.rate (s.tokens + (now - s.updated_at) * (s.rate / s.per))
             updated_at := now } : RateLimiter).tokens ≤ 0
      · rw [if_pos h2]
        exact ih _ _ _ (min_le_left _ _)
      · rw [if_neg h2]
        exact ih _ _ _ (min_le_left _ _)
    · rw [if_neg h1]
      exact h

/-- One iteration of the wait loop when the refill still leaves the bucket
empty: sleep one token interval and loop. -/
theorem acquireLoop_step_sleep (fuel : Nat) (s : RateLimiter) (now w : ℚ)
    (h1 : s.tokens ≤ 0)
    (h2 : min s.rate (s.tokens + (now - s.updated_at) * (s.rate / s.per)) ≤ 0) :
    acquireLoop (fuel + 1) s now w
      = acquireLoop fuel
          { s with
            tokens := min s.rate (s.tokens + (now - s.updated_at) * (s.rate / s.per))
            updated_at := now }
          (now + 1 / (s.rate / s.per)) (w + 1 / (s.rate / s.per)) := by
  conv_lhs => rw [acquireLoop]
  rw [if_pos h1, if_pos h2]

/-- One iteration of the wait loop when the refill produces tokens: update
the bucket and re-check the loop condition. -/
theorem acquireLoop_step_refill (fuel : Nat) (s : RateLimiter) (now w : ℚ)
    (h1 : s.tokens ≤ 0)
    (h2 : ¬min s.rate (s.tokens + (now - s.updated_at) * (s.rate / s.per)) ≤ 0) :
    acquireLoop (fuel + 1) s now w
      = acquireLoop fuel
          { s with
            tokens := min s.rate (s.tokens + (now - s.updated_at) * (s.rate / s.per))
            updated_at := now }
          now w := by
  conv_lhs => rw [acquireLoop]
  rw [if_pos h1, if_neg h2]

/-- C8: from the full initial bucket of a limiter configured `rate=10` per
60 seconds, the first 10 back-to-back `acquire` calls sleep 0 seconds each;
the 11th call sleeps exactly `per / rate = 6` seconds (bounded, equal to one
token's refill interval); and from any state with at most `rate` tokens,
`acquire` never leaves more than `rate` tokens in the bucket. -/
theorem rate_limiter_first_ten_free_eleventh_waits :
    (acquireSeq 10 (RateLimiter.init 10 60) 0).2.2 = List.replicate 10 0
      ∧ ((acquireSeq 10 (RateLimiter.init 10 60) 0).1.acquire 100
            ((acquireSeq 10 (RateLimiter.init 10 60) 0).2.1)).2.2 = 6
      ∧ (6 : ℚ) = (RateLimiter.init 10 60).per / (RateLimiter.init 10 60).rate
      ∧ (∀ (fuel : Nat) (s : RateLimiter) (now : ℚ), s.tokens ≤ s.rate →
          (s.acquire fuel now).1.tokens ≤ s.rate) := by
  have hexit : ∀ (fuel : Nat) (s : RateLimiter) (now w : ℚ), ¬s.tokens ≤ 0 →
      acquireLoop fuel s now w = (s, now, w) := by
    intro fuel s now w h
    cases fuel with
    | zero => rfl
    | succ n =>
      unfold acquireLoop
      rw [if_neg h]
  have hnowait : ∀ (fuel : Nat) (s : RateLimiter) (now : ℚ), ¬s.tokens ≤ 0 →
      s.acquire fuel now = ({ s with tokens := s.tokens - 1 }, now, 0) := by
    intro fuel s now h
    unfold RateLimiter.acquire
    rw [hexit fuel s now 0 h]
  have hseq : ∀ (n : Nat) (s : RateLimiter) (now : ℚ), (n : ℚ) ≤ s.tokens →
      acquireSeq n s now
        = ({ s with tokens := s.tokens - (n : ℚ) }, now, List.replicate n 0) := by
    intro n
    induction n with
    | zero =>
      intro s now h
      simp [acquireSeq]
    | succ n ih =>
      intro s now h
      have h0 : (0 : ℚ) ≤ (n : ℚ) := Nat.cast_nonneg n
      have hpos : ¬s.tokens ≤ 0 := by
        push_cast at h
        intro hc
        linarith
      simp only [acquireSeq]
      rw [hnowait 100 s now hpos]
      rw [ih _ _ (show (n : ℚ) ≤ s.tokens - 1 by push_cast at h; linarith)]
      simp only [List.replicate_succ]
      push_cast
      have harith : s.tokens - 1 - (n : ℚ) = s.tokens - ((n : ℚ) + 1) := by ring
      simp [harith]
  have hten : acquireSeq 10 (RateLimiter.init 10 60) 0
      = (RateLimiter.mk 10 60 0 0, 0, List.replicate 10 0) := by
    rw [hseq 10 (RateLimiter.init 10 60) 0 (by norm_num [RateLimiter.init])]
    norm_num [RateLimiter.init]
  have h11 : (RateLimiter.mk 10 60 0 0).acquire 100 0
      = (RateLimiter.mk 10 60 0 6, 6, 6) := by
    have e1 : acquireLoop 100 (RateLimiter.mk 10 60 0 0) 0 0
        = acquireLoop 99 (RateLimiter.mk 10 60 0 0) 6 6 := by
      have step := acquireLoop_step_sleep 99 (RateLimiter.mk 10 60 0 0) 0 0
        (by norm_num) (by norm_num [min_def])
      rw [step]
      norm_num [min_def]
    have e2 : acquireLoop 99 (RateLimiter.mk 10 60 0 0) 6 6
        = (RateLimiter.mk 10 60 1 6, 6, 6) := by
      have step := acquireLoop_step_refill 98 (RateLimiter.mk 10 60 0 0) 6 6
        (by norm_num) (by norm_num [min_def])
      rw [step, hexit 98 _ 6 6 (by norm_num [min_def])]
      norm_num [min_def]
    unfold RateLimiter.acquire
    rw [e1, e2]
    norm_num
  refine ⟨?_, ?_, ?_, ?_⟩
  · rw [hten]
  · rw [hten]
    show (RateLimiter.mk 10 60 0 0).acquire 100 0 |>.2.2 = 6
    rw [h11]
  · norm_num [RateLimiter.init]
  intro fuel s now h
  unfold RateLimiter.acquire
  calc (acquireLoop fuel s now 0).1.tokens - 1
      ≤ (acquireLoop fuel s now 0).1.tokens := by linarith
    _ ≤ s.rate := acquireLoop_tokens_le fuel s now 0 h

/-- Witness for the rate limiter theorem: the never-exceeds-`rate` invariant
applied at a concrete limiter state with 4 of 10 tokens. -/
theorem rate_limiter_witness :
    ((RateLimiter.mk 10 60 4 0).tokens ≤ (RateLimiter.mk 10 60 4 0).rate)
      ∧ ((RateLimiter.mk 10 60 4 0).acquire 3 0).1.tokens
          ≤ (RateLimiter.mk 10 60 4 0).rate :=
  ⟨by norm_num,
   rate_limiter_first_ten_free_eleventh_waits.2.2.2 3 (RateLimiter.mk 10 60 4 0) 0
     (by norm_num)⟩

/-! ### `update_document_status` on a missing id (C9). -/

/-- C9 counterexample: updating a document id that is not in the store is a
silent no-op — the store is returned unchanged and, the function being
total, no error is raised — while the spec-modelled loud variant fails.
The underlying SQL `UPDATE` simply matches zero rows. -/
theorem c9_counterexample_missing_id_silent :
    update_document_status [sampleDoc] "DOC-999-0000000" DocStatus.completed
        (some "KB-1") (some "oops") 7 = [sampleDoc]
      ∧ update_document_status_loud [sampleDoc] "DOC-999-0000000"
          DocStatus.completed (some "KB-1") (some "oops") 7
          = Except.error "Document not found: DOC-999-0000000" := by
  exact ⟨by decide, rfl⟩

/-- C9 as amended: `update_document_status` sets the status, the optional
remote id and error columns, and stamps the processed time on every row
whose id matches; rows with other ids are untouched; and when no row
matches, the call silently leaves the store unchanged instead of failing
loudly. -/
theorem update_document_status_amended (docs : List Document)
    (document_id : String) (status : DocStatus) (sid err : Option String)
    (now : Nat) :
    (∀ k (hk : k < docs.length)
      (hk' : k < (update_document_status docs document_id status sid err now).length),
      (update_document_status docs document_id status sid err now).get ⟨k, hk'⟩
        = if (docs.get ⟨k, hk⟩).id = document_id then
            { docs.get ⟨k, hk⟩ with
              status := status, superops_id := sid, error_message := err
              processed_at := some now }
          else docs.get ⟨k, hk⟩)
    ∧ ((∀ d ∈ docs, d.id ≠ document_id) →
        update_document_status docs document_id status sid err now = docs) := by
  constructor
  · intro k hk hk'
    show (docs.map (updOne document_id status sid err now)).get ⟨k, hk'⟩ = _
    simp only [List.get_eq_getElem, List.getElem_map]
    unfold updOne
    rfl
  · intro h
    have hid : ∀ d ∈ docs, updOne document_id status sid err now d = d := by
      intro d hd
      unfold updOne
      rw [if_neg (h d hd)]
    calc docs.map (updOne document_id status sid err now)
        = docs.map id := List.map_congr_left hid
      _ = docs := List.map_id docs

/-- Witness for the amended `update_document_status` theorem: a matching row
gets the new status and a processed stamp; a store without the id is
untouched. -/
theorem update_document_status_amended_witness :
    (update_document_status [sampleDoc] "DOC-100-0000001" DocStatus.completed
        (some "KB-9") none 7).get ⟨0, by decide⟩
        = { sampleDoc with
            status := DocStatus.completed, superops_id := some "KB-9"
            error_message := none, processed_at := some 7 }
      ∧ update_document_status [sampleDoc] "DOC-777-0000000" DocStatus.failed
          none none 9 = [sampleDoc] :=
  ⟨((update_document_status_amended [sampleDoc] "DOC-100-0000001"
      DocStatus.completed (some "KB-9") none 7).1 0 (by decide)
      (by decide)).trans (by decide),
   (update_document_status_amended [sampleDoc] "DOC-777-0000000" DocStatus.failed
      none none 9).2 (by decide)⟩

/-! ### Migration-order and whole-run scenario (C10). -/

/-- The three-document metadata cache of the scenario: D1 depends on D2, D3
is independent. -/
def metaC10 : List DocMeta :=
  [{ locator := "DOC-200-0000001", name := "Server Guide Part 2"
     organization := "Acme", related_documents := ["DOC-200-0000002"] },
   { locator := "DOC-200-0000002", name := "Server Guide Part 1"
     organization := "Acme", related_documents := [] },
   { locator := "DOC-200-0000003", name := "Printer Setup"
     organization := "Beta", related_documents := [] }]

/-- Migration order computed from the scenario metadata. -/
def orderC10 : List String := get_migration_order metaC10

/-- Fresh run state for the scenario. -/
def stC10 : OrchState := createRunState metaC10

/-- Work list for the scenario (no limit, batch size 10). -/
def worklistC10 : List Document := getDocumentsToMigrate stC10 none orderC10

/-- Final state after processing the scenario with every gateway call
succeeding. -/
def finalC10 : OrchState :=
  (processBatches cfgDefault (fun _ => DocEnv.allOk) worklistC10.length
    worklistC10 stC10).1

/-- C10: the migration-order sort places D2 before D1 (D3 trailing); the
work list follows that order; after a run in which every gateway call
succeeds all three documents end COMPLETED and the run counters read
total=3, successful=3, failed=0, skipped=0. -/
theorem migration_order_scenario :
    orderC10 = ["DOC-200-0000002", "DOC-200-0000001", "DOC-200-0000003"]
      ∧ orderKey orderC10 "DOC-200-0000002" < orderKey orderC10 "DOC-200-0000001"
      ∧ worklistC10.map Document.id
          = ["DOC-200-0000002", "DOC-200-0000001", "DOC-200-0000003"]
      ∧ (∀ d ∈ finalC10.documents, d.status = DocStatus.completed)
      ∧ finalC10.run.total_documents = 3
      ∧ finalC10.run.successful_documents = 3
      ∧ finalC10.run.failed_documents = 0
      ∧ finalC10.run.skipped_documents = 0 := by
  refine ⟨by decide, by decide, by decide, by decide, by decide, by decide,
    by decide, by decide⟩

end Migrator
